import Mathlib

/-!
Verification of the AmBIENCe2ABM data-processing pipeline
(`src/ambience2abm/process_ambience_data.py`).

The development shallowly embeds the parts of `AmBIENCeDataset` that the
verified properties are about:

* the record table produced by `preprocess_data` (one `DataRecord` per row,
  with the derived `material_combination_weight` column),
* the `extrapolate` method that appends synthetic records for new countries,
* the heating-system prevalency normalization and the
  `calculate_building_stock_statistics` table (these involve IEEE-float
  non-finite values, modelled by the `FVal` type),
* the pure thermal-physics functions
  `calculate_weighted_effective_thermal_mass` and `calculate_U_values`,
  and the `calculate_structure_statistics` table, modelled over the reals.

Exact rational numbers (`ℚ`) stand in for finite floats on the tabular side,
and real numbers (`ℝ`) on the physics side; the `FVal` type models the
NaN/inf propagation that pandas `dropna` interacts with.
-/

namespace AmBIENCe2ABM

/-! ## Float-like values

Pandas columns hold IEEE floats; division by a zero row sum produces
NaN (for 0/0) or signed infinities, which later interact with `dropna`.
`FVal` models a float as either a finite exact value or one of the three
non-finite values. -/

/-- Model of an IEEE-float cell value: a finite (exact rational) number,
one of the two infinities, or NaN. -/
inductive FVal where
  | num : ℚ → FVal
  | inf : FVal
  | ninf : FVal
  | nan : FVal
deriving DecidableEq, Repr

/-- IEEE-style addition on `FVal` (NaN propagates, opposite infinities
give NaN). -/
def fadd : FVal → FVal → FVal
  | FVal.nan, _ => FVal.nan
  | _, FVal.nan => FVal.nan
  | FVal.num a, FVal.num b => FVal.num (a + b)
  | FVal.num _, FVal.inf => FVal.inf
  | FVal.inf, FVal.num _ => FVal.inf
  | FVal.num _, FVal.ninf => FVal.ninf
  | FVal.ninf, FVal.num _ => FVal.ninf
  | FVal.inf, FVal.inf => FVal.inf
  | FVal.ninf, FVal.ninf => FVal.ninf
  | FVal.inf, FVal.ninf => FVal.nan
  | FVal.ninf, FVal.inf => FVal.nan

/-- IEEE-style multiplication on `FVal` (NaN propagates, `0 * inf = NaN`). -/
def fmul : FVal → FVal → FVal
  | FVal.nan, _ => FVal.nan
  | _, FVal.nan => FVal.nan
  | FVal.num a, FVal.num b => FVal.num (a * b)
  | FVal.num a, FVal.inf =>
      if 0 < a then FVal.inf else if a < 0 then FVal.ninf else FVal.nan
  | FVal.inf, FVal.num a =>
      if 0 < a then FVal.inf else if a < 0 then FVal.ninf else FVal.nan
  | FVal.num a, FVal.ninf =>
      if 0 < a then FVal.ninf else if a < 0 then FVal.inf else FVal.nan
  | FVal.ninf, FVal.num a =>
      if 0 < a then FVal.ninf else if a < 0 then FVal.inf else FVal.nan
  | FVal.inf, FVal.inf => FVal.inf
  | FVal.inf, FVal.ninf => FVal.ninf
  | FVal.ninf, FVal.inf => FVal.ninf
  | FVal.ninf, FVal.ninf => FVal.inf

/-- IEEE-style division on `FVal`: `0 / 0 = NaN`, `x / 0 = ±inf` for
nonzero finite `x` (the zero divisor is treated as `+0`), NaN propagates. -/
def fdiv : FVal → FVal → FVal
  | FVal.nan, _ => FVal.nan
  | _, FVal.nan => FVal.nan
  | FVal.num a, FVal.num b =>
      if b = 0 then
        (if a = 0 then FVal.nan else if 0 < a then FVal.inf else FVal.ninf)
      else FVal.num (a / b)
  | FVal.num _, FVal.inf => FVal.num 0
  | FVal.num _, FVal.ninf => FVal.num 0
  | FVal.inf, FVal.num b => if 0 ≤ b then FVal.inf else FVal.ninf
  | FVal.ninf, FVal.num b => if 0 ≤ b then FVal.ninf else FVal.inf
  | FVal.inf, FVal.inf => FVal.nan
  | FVal.inf, FVal.ninf => FVal.nan
  | FVal.ninf, FVal.inf => FVal.nan
  | FVal.ninf, FVal.ninf => FVal.nan

/-- Whether a float-like value is NaN (what pandas `dropna` detects in a
numeric column). -/
def FVal.isnan : FVal → Bool
  | FVal.nan => true
  | _ => false

/-- The finite value carried by an `FVal`, defaulting to `0` for the
non-finite values. -/
def FVal.toQ : FVal → ℚ
  | FVal.num q => q
  | _ => 0

/-- Whether a float-like value is finite. -/
def FVal.isfinite : FVal → Bool
  | FVal.num _ => true
  | _ => false

/-! ## Records

One `DataRecord` is one row of `AmBIENCeDataset.data` right after
`preprocess_data` (columns renamed, heat sources derived, `building_period`
and `building_stock` built, `material_combination_weight` attached).
Physical/material columns that the tabular claims never inspect are kept
abstractly as a map from column name to value in the `phys` field. -/

/-- One row of the preprocessed AmBIENCe dataset. -/
structure DataRecord where
  reference_building_code : String
  building_type : String
  building_period : String
  location_id : String
  category : String
  building_stock : String
  building_stock_year : Int
  shapefile_path : String
  notes : String
  average_gross_floor_area_m2_per_building : ℚ
  number_of_buildings : ℚ
  material_combination_weight : ℚ
  heat_source_1 : Option String
  heat_source_2 : Option String
  heat_source_3 : Option String
  prevalency_1 : FVal
  prevalency_2 : FVal
  prevalency_3 : FVal
  phys : String → ℚ

/-- Group key used for the material-combination weights and most
aggregations: `(building_type, building_period, location_id)`. -/
def archetype_key (r : DataRecord) : String × String × String :=
  (r.building_type, r.building_period, r.location_id)

/-- Column `total_area_over_material_combinations_m2` of `preprocess_data`:
the group-by sum of `average_gross_floor_area_m2_per_building` over the
archetype key. -/
def total_area_over_material_combinations (ds : List DataRecord)
    (k : String × String × String) : ℚ :=
  ((ds.filter fun r => archetype_key r = k).map
    (·.average_gross_floor_area_m2_per_building)).sum

/-- The weight assignment of `preprocess_data`: the row's floor area divided
by the group total joined back onto the row. -/
def assign_material_combination_weight (ds : List DataRecord)
    (r : DataRecord) : DataRecord :=
  { r with material_combination_weight :=
      r.average_gross_floor_area_m2_per_building /
        total_area_over_material_combinations ds (archetype_key r) }

/-- The weight-computation step of `preprocess_data` (lines 145-159 of the
source): every row receives `material_combination_weight`. -/
def calculate_material_combination_weights (ds : List DataRecord) :
    List DataRecord :=
  ds.map (assign_material_combination_weight ds)

/-- Sum of `material_combination_weight` over the records of one archetype
group. -/
def weight_sum (ds : List DataRecord) (k : String × String × String) : ℚ :=
  ((ds.filter fun r => archetype_key r = k).map
    (·.material_combination_weight)).sum

/-! ## Extrapolation -/

/-- The per-row transformation of `extrapolate` for one mapping entry
`c1 ↦ (c2, coeff)`: rename the building code by substring replacement,
rename the country, re-join the shapefile path and notes for the new
country, rebuild the `building_stock` label from the tag, and scale
`number_of_buildings`; every other column is copied. `shp` models the
`shapefile_mappings` table as `country ↦ (shapefile_path, notes)`. -/
def extrapolate_record (shp : String → String × String) (tag : String)
    (c1 c2 : String) (coeff : ℚ) (r : DataRecord) : DataRecord :=
  let loc := if r.location_id = c1 then c2 else r.location_id
  { r with
    reference_building_code := r.reference_building_code.replace c1 c2
    location_id := loc
    shapefile_path := (shp loc).1
    notes := (shp loc).2
    building_stock :=
      tag ++ "_" ++ toString r.building_stock_year ++ "_" ++ loc ++ "_"
        ++ r.category
    number_of_buildings := r.number_of_buildings * coeff }

/-- The `extrapolate` method (source lines 180-226): for every mapping entry
`(c1, (c2, coeff))` the rows of the original data with `location_id = c1`
are transformed by `extrapolate_record` and all the resulting segments are
concatenated after the original data.  The `year` parameter is part of the
method signature but is never read by the body. -/
def extrapolate (shp : String → String × String) (ds : List DataRecord)
    (mappings : List (String × String × ℚ)) (tag : String) (year : Int) :
    List DataRecord :=
  ds ++ mappings.flatMap fun m =>
    (ds.filter fun r => r.location_id = m.1).map
      (extrapolate_record shp tag m.1 m.2.1 m.2.2)

/-! ## Concrete witness data -/

/-- A trivial shapefile-mappings table for witnesses. -/
def shp0 : String → String × String := fun _ => ("path", "na")

/-- A concrete preprocessed record (Austria, floor area 100). -/
def rec1 : DataRecord where
  reference_building_code := "AT1"
  building_type := "AB"
  building_period := "1980-1990"
  location_id := "AT"
  category := "res"
  building_stock := "AmBIENCe_2016_AT_res"
  building_stock_year := 2016
  shapefile_path := "p"
  notes := "n"
  average_gross_floor_area_m2_per_building := 100
  number_of_buildings := 4
  material_combination_weight := 0
  heat_source_1 := some "Gas"
  heat_source_2 := none
  heat_source_3 := none
  prevalency_1 := FVal.num 1
  prevalency_2 := FVal.num 0
  prevalency_3 := FVal.num 0
  phys := fun _ => 0

/-- A second concrete record in the same archetype group (floor area 300). -/
def rec2 : DataRecord :=
  { rec1 with
    reference_building_code := "AT2"
    average_gross_floor_area_m2_per_building := 300
    number_of_buildings := 6 }

/-! ## Prevalency normalization and the building-stock-statistics table -/

/-- The heating-system prevalency normalization of `preprocess_data`
(source lines 126-130): each of the three prevalency columns is divided by
their row-wise sum, in IEEE-float arithmetic. -/
def normalize_prevalency (p1 p2 p3 : ℚ) : FVal × FVal × FVal :=
  let tot := p1 + p2 + p3
  (fdiv (FVal.num p1) (FVal.num tot), fdiv (FVal.num p2) (FVal.num tot),
    fdiv (FVal.num p3) (FVal.num tot))

/-- One expanded row of the `calculate_building_stock_statistics` table:
one record crossed with one heating-system slot. -/
structure BssRow where
  building_stock : String
  building_type : String
  building_period : String
  location_id : String
  heat_source : Option String
  number_of_buildings : FVal
  average_gross_floor_area_m2_per_building : ℚ
deriving DecidableEq, Repr

/-- The row built for one record and one heating-system slot:
`number_of_buildings` is multiplied by the slot's prevalency. -/
def heating_system_row (r : DataRecord) (hs : Option String) (prev : FVal) :
    BssRow where
  building_stock := r.building_stock
  building_type := r.building_type
  building_period := r.building_period
  location_id := r.location_id
  heat_source := hs
  number_of_buildings := fmul (FVal.num r.number_of_buildings) prev
  average_gross_floor_area_m2_per_building :=
    r.average_gross_floor_area_m2_per_building

/-- The expansion step of `calculate_building_stock_statistics`: every
record times the three heating-system slots. -/
def building_stock_statistics_rows (ds : List DataRecord) : List BssRow :=
  ds.flatMap fun r =>
    [heating_system_row r r.heat_source_1 r.prevalency_1,
      heating_system_row r r.heat_source_2 r.prevalency_2,
      heating_system_row r r.heat_source_3 r.prevalency_3]

/-- Whether a `BssRow` contains a NaN cell.  In this model only the heat
source (a missing string) and the weighted building count can be NaN; every
other column always carries a proper value. -/
def row_has_nan (row : BssRow) : Bool :=
  row.heat_source.isNone || row.number_of_buildings.isnan

/-- The `bss.dropna()` step of the source: pandas drops every row that has
a NaN in any column. -/
def dropna (rows : List BssRow) : List BssRow :=
  rows.filter fun row => !(row_has_nan row)

/-- The group of kept expanded rows for one
`(building_stock, building_type, building_period, location_id, heat_source)`
key. -/
def bss_group (ds : List DataRecord)
    (k : String × String × String × String × String) : List BssRow :=
  (dropna (building_stock_statistics_rows ds)).filter fun row =>
    (row.building_stock, row.building_type, row.building_period,
      row.location_id, row.heat_source)
      = (k.1, k.2.1, k.2.2.1, k.2.2.2.1, some k.2.2.2.2)

/-- The `calculate_building_stock_statistics` aggregation (source lines
286-344): per group, `number_of_buildings` is summed and the floor area
averaged. -/
def calculate_building_stock_statistics (ds : List DataRecord)
    (k : String × String × String × String × String) : FVal × FVal :=
  (((bss_group ds k).map (·.number_of_buildings)).foldr fadd (FVal.num 0),
    fdiv
      (FVal.num (((bss_group ds k).map
        (·.average_gross_floor_area_m2_per_building)).sum))
      (FVal.num ((bss_group ds k).length : ℚ)))

/-- Modelled from the words of claim C5: a drop step that removes exactly
the expanded rows whose heat source is missing and preserves rows whose
other columns are non-finite.  This is the claimed behaviour, to be
compared against the `dropna` of the source. -/
def claimed_drop (rows : List BssRow) : List BssRow :=
  rows.filter fun row => !row.heat_source.isNone

/-- The group of kept rows under the claimed drop step of C5. -/
def claimed_bss_group (ds : List DataRecord)
    (k : String × String × String × String × String) : List BssRow :=
  (claimed_drop (building_stock_statistics_rows ds)).filter fun row =>
    (row.building_stock, row.building_type, row.building_period,
      row.location_id, row.heat_source)
      = (k.1, k.2.1, k.2.2.1, k.2.2.2.1, some k.2.2.2.2)

/-- The building-stock statistics as claim C5 describes them: same
expansion and aggregation, but with the claimed drop step. -/
def claimed_building_stock_statistics (ds : List DataRecord)
    (k : String × String × String × String × String) : FVal × FVal :=
  (((claimed_bss_group ds k).map (·.number_of_buildings)).foldr fadd
      (FVal.num 0),
    fdiv
      (FVal.num (((claimed_bss_group ds k).map
        (·.average_gross_floor_area_m2_per_building)).sum))
      (FVal.num ((claimed_bss_group ds k).length : ℚ)))

/-- A record whose first heating-system slot has a NaN prevalency (as
produced by normalizing an all-zero prevalency row) but a present heat
source. -/
def recNaN : DataRecord :=
  { rec1 with
    reference_building_code := "AT3"
    prevalency_1 := FVal.nan }

/-! ## Thermal physics

The physics functions `calculate_weighted_effective_thermal_mass` and
`calculate_U_values` and the `calculate_structure_statistics` table are
modelled over the reals.  A `PhysRow` carries the archetype-key columns,
the material-combination weight, and the per-structure-type material
columns, indexed by the structure type's column-name mapping prefix. -/

/-- The configuration fixed at `AmBIENCeDataset` construction time. -/
structure ThermalConfig where
  interior_node_depth : ℝ
  period_of_variations : ℝ

/-- The material columns of one structure-type mapping prefix
(the "REFERENCE BUILDING <mapping> ..." columns). -/
structure MaterialColumns where
  material_thickness_m : ℝ
  material_density_kg_m3 : ℝ
  material_specific_heat_capacity_J_kgK : ℝ
  material_thermal_conductivity_W_mK : ℝ
  insulation_material_thickness_m : ℝ
  insulation_material_density_kg_m3 : ℝ
  insulation_material_specific_heat_capacity_J_kgK : ℝ
  insulation_material_thermal_conductivity_W_mK : ℝ
  u_value_W_m2K : ℝ

/-- One row of the `structure_types.csv` assumptions table. -/
structure StructureTypeRow where
  mapping : String
  is_internal : Bool
  interior_resistance_m2K_W : ℝ
  exterior_resistance_m2K_W : ℝ
  linear_thermal_bridge_W_mK : ℝ

/-- One data row as seen by the physics functions. -/
structure PhysRow where
  building_type : String
  building_period : String
  location_id : String
  material_combination_weight : ℝ
  cols : String → MaterialColumns

noncomputable section

/-- The effective-thickness damping formula of
`calculate_weighted_effective_thermal_mass` (source lines 387-395):
the square root of `shc² / (1 + (2π/T)² shc² R²)`. -/
def effective_thermal_mass (period interior_resistance shc : ℝ) : ℝ :=
  Real.sqrt (shc ^ 2 /
    (1 + (2 * Real.pi / period) ^ 2 * shc ^ 2 * interior_resistance ^ 2))

/-- The areal heat capacity `shc` of `calculate_weighted_effective_thermal_mass`
(source lines 370-385): base material contribution plus, multiplied by the
0/1 value of `not is_internal`, half the insulation contribution. -/
def areal_heat_capacity (stT : String → StructureTypeRow) (r : PhysRow)
    (st : String) : ℝ :=
  let m := r.cols (stT st).mapping
  m.material_thickness_m * m.material_density_kg_m3 *
      m.material_specific_heat_capacity_J_kgK
    + (if (stT st).is_internal then 0 else 1) * 0.5 *
        m.insulation_material_thickness_m *
        m.insulation_material_density_kg_m3 *
        m.insulation_material_specific_heat_capacity_J_kgK

/-- The `calculate_weighted_effective_thermal_mass` method (source lines
346-395). -/
def calculate_weighted_effective_thermal_mass (cfg : ThermalConfig)
    (stT : String → StructureTypeRow) (r : PhysRow) (st : String) : ℝ :=
  effective_thermal_mass cfg.period_of_variations
    (stT st).interior_resistance_m2K_W (areal_heat_capacity stT r st)

/-- The `material_resistance` local of `calculate_U_values`:
thickness over conductivity. -/
def material_resistance (stT : String → StructureTypeRow) (r : PhysRow)
    (st : String) : ℝ :=
  (r.cols (stT st).mapping).material_thickness_m /
    (r.cols (stT st).mapping).material_thermal_conductivity_W_mK

/-- The `insulation_resistance` local of `calculate_U_values`. -/
def insulation_resistance (stT : String → StructureTypeRow) (r : PhysRow)
    (st : String) : ℝ :=
  (r.cols (stT st).mapping).insulation_material_thickness_m /
    (r.cols (stT st).mapping).insulation_material_thermal_conductivity_W_mK

/-- The `calculate_U_values` method (source lines 397-466): the tuple
(to ambient air, to ground, interior, total) computed by the internal,
ground-coupled (base floor), or exterior-to-air branch. -/
def calculate_U_values (cfg : ThermalConfig) (stT : String → StructureTypeRow)
    (r : PhysRow) (st : String) : ℝ × ℝ × ℝ × ℝ :=
  if (stT st).is_internal then
    let intR := cfg.interior_node_depth * 0.5 * material_resistance stT r st
      + (stT st).interior_resistance_m2K_W
    let extR := (2 - cfg.interior_node_depth) * 0.5 *
        material_resistance stT r st
      + (stT st).exterior_resistance_m2K_W
    (1 / extR, 0, 1 / intR, 1 / (extR + intR))
  else if st = "base_floor" then
    let intR := cfg.interior_node_depth *
        (material_resistance stT r st + 0.5 * insulation_resistance stT r st)
      + (stT st).interior_resistance_m2K_W
    let flrR := material_resistance stT r st + insulation_resistance stT r st
      + (stT st).interior_resistance_m2K_W
    let grnR := 1 / (0.114 / (0.7044 + flrR) + 0.8768 / (2.818 + flrR)) - intR
    (0, 1 / grnR, 1 / intR, 1 / (intR + grnR))
  else
    let intR := cfg.interior_node_depth *
        (material_resistance stT r st + 0.5 * insulation_resistance stT r st)
      + (stT st).interior_resistance_m2K_W
    let extR := material_resistance stT r st + insulation_resistance stT r st
      + (stT st).interior_resistance_m2K_W + (stT st).exterior_resistance_m2K_W
      - intR
    (1 / extR, 0, 1 / intR, 1 / (extR + intR))

/-- One output row of the `calculate_structure_statistics` table. -/
structure StructureStatisticsRow where
  design_U_value_W_m2K : ℝ
  effective_thermal_mass_J_m2K : ℝ
  linear_thermal_bridges_W_mK : ℝ
  external_U_value_to_ambient_air_W_m2K : ℝ
  external_U_value_to_ground_W_m2K : ℝ
  internal_U_value_to_structure_W_m2K : ℝ
  total_U_value_W_m2K : ℝ

/-- The numeric columns built for one record and one structure type in
`calculate_structure_statistics` (source lines 480-506): every quantity is
multiplied by the record's `material_combination_weight`. -/
def structure_statistics_values (cfg : ThermalConfig)
    (stT : String → StructureTypeRow) (r : PhysRow) (st : String) :
    StructureStatisticsRow where
  design_U_value_W_m2K :=
    r.material_combination_weight * (r.cols (stT st).mapping).u_value_W_m2K
  effective_thermal_mass_J_m2K :=
    r.material_combination_weight *
      calculate_weighted_effective_thermal_mass cfg stT r st
  linear_thermal_bridges_W_mK :=
    r.material_combination_weight * (stT st).linear_thermal_bridge_W_mK
  external_U_value_to_ambient_air_W_m2K :=
    r.material_combination_weight * (calculate_U_values cfg stT r st).1
  external_U_value_to_ground_W_m2K :=
    r.material_combination_weight * (calculate_U_values cfg stT r st).2.1
  internal_U_value_to_structure_W_m2K :=
    r.material_combination_weight * (calculate_U_values cfg stT r st).2.2.1
  total_U_value_W_m2K :=
    r.material_combination_weight * (calculate_U_values cfg stT r st).2.2.2

/-- The expansion of every record times every structure type into keyed
rows, as in `calculate_structure_statistics` (source lines 478-510). -/
def structure_statistics_rows (cfg : ThermalConfig)
    (stT : String → StructureTypeRow) (structure_types_index : List String)
    (ds : List PhysRow) :
    List ((String × String × String × String) × StructureStatisticsRow) :=
  ds.flatMap fun r => structure_types_index.map fun st =>
    ((r.building_type, r.building_period, r.location_id, st),
      structure_statistics_values cfg stT r st)

/-- The grouped `calculate_structure_statistics` table (source lines
468-539): group by (building_type, building_period, location_id,
structure_type) and sum every numeric column. -/
def calculate_structure_statistics (cfg : ThermalConfig)
    (stT : String → StructureTypeRow) (structure_types_index : List String)
    (ds : List PhysRow) (k : String × String × String × String) :
    StructureStatisticsRow :=
  let g := ((structure_statistics_rows cfg stT structure_types_index
      ds).filter fun row => row.1 = k).map fun row => row.2
  { design_U_value_W_m2K := (g.map (·.design_U_value_W_m2K)).sum
    effective_thermal_mass_J_m2K := (g.map (·.effective_thermal_mass_J_m2K)).sum
    linear_thermal_bridges_W_mK := (g.map (·.linear_thermal_bridges_W_mK)).sum
    external_U_value_to_ambient_air_W_m2K :=
      (g.map (·.external_U_value_to_ambient_air_W_m2K)).sum
    external_U_value_to_ground_W_m2K :=
      (g.map (·.external_U_value_to_ground_W_m2K)).sum
    internal_U_value_to_structure_W_m2K :=
      (g.map (·.internal_U_value_to_structure_W_m2K)).sum
    total_U_value_W_m2K := (g.map (·.total_U_value_W_m2K)).sum }

/-- A concrete non-internal structure-type row for witnesses. -/
def stRow0 : StructureTypeRow where
  mapping := "EXTERIOR WALL"
  is_internal := false
  interior_resistance_m2K_W := 0.13
  exterior_resistance_m2K_W := 0.04
  linear_thermal_bridge_W_mK := 0.05

/-- A concrete structure-type table for witnesses. -/
def stT0 : String → StructureTypeRow := fun _ => stRow0

/-- Concrete nonnegative material columns for witnesses. -/
def mat0 : MaterialColumns where
  material_thickness_m := 2
  material_density_kg_m3 := 3
  material_specific_heat_capacity_J_kgK := 4
  material_thermal_conductivity_W_mK := 1
  insulation_material_thickness_m := 1
  insulation_material_density_kg_m3 := 5
  insulation_material_specific_heat_capacity_J_kgK := 6
  insulation_material_thermal_conductivity_W_mK := 1
  u_value_W_m2K := 1

/-- The default configuration of the source (`interior_node_depth = 0.1`,
`period_of_variations = 1209600`). -/
def cfg0 : ThermalConfig where
  interior_node_depth := 0.1
  period_of_variations := 1209600

/-- A concrete physics row with weight 1/4. -/
def physRow1 : PhysRow where
  building_type := "AB"
  building_period := "1980-1990"
  location_id := "AT"
  material_combination_weight := 1/4
  cols := fun _ => mat0

/-- A concrete physics row in the same archetype group with weight 3/4. -/
def physRow2 : PhysRow :=
  { physRow1 with material_combination_weight := 3/4 }

end

/-! ## List helper lemmas -/

/-- Summing pointwise divisions by a common constant divides the sum. -/
lemma sum_map_div {α : Type} (l : List α) (f : α → ℚ) (c : ℚ) :
    (l.map fun x => f x / c).sum = (l.map f).sum / c := by
  induction l with
  | nil => simp
  | cons a t ih => simp [ih, add_div]

/-- A sum of nonnegative values is nonnegative. -/
lemma sum_map_nonneg {α : Type} (l : List α) (f : α → ℚ)
    (h : ∀ x ∈ l, 0 ≤ f x) : 0 ≤ (l.map f).sum := by
  induction l with
  | nil => simp
  | cons a t ih =>
    have ha := h a (List.mem_cons_self a t)
    have ht := ih fun x hx => h x (List.mem_cons_of_mem a hx)
    simp only [List.map_cons, List.sum_cons]
    linarith

/-- A sum of positive values over a nonempty list is positive. -/
lemma sum_map_pos {α : Type} (l : List α) (f : α → ℚ)
    (h : ∀ x ∈ l, 0 < f x) (hne : l ≠ []) : 0 < (l.map f).sum := by
  cases l with
  | nil => exact absurd rfl hne
  | cons a t =>
    have ha := h a (List.mem_cons_self a t)
    have ht := sum_map_nonneg t f fun x hx => le_of_lt (h x (List.mem_cons_of_mem a hx))
    simp only [List.map_cons, List.sum_cons]
    linarith

/-- Summing an if-then-else whose condition never holds gives zero. -/
lemma sum_map_ite_zero {M : Type} (l : List M) (t : M → String) (c : String)
    (g : M → ℚ) (h : ∀ m ∈ l, t m ≠ c) :
    (l.map fun m => if t m = c then g m else 0).sum = 0 := by
  induction l with
  | nil => simp
  | cons a tl ih =>
    have ha := h a (List.mem_cons_self a tl)
    simp only [List.map_cons, List.sum_cons, if_neg ha,
      ih fun m hm => h m (List.mem_cons_of_mem a hm), add_zero]

/-- When the tags of a list are pairwise distinct, an if-then-else sum that
selects one tag collapses to the unique selected entry. -/
lemma sum_map_ite_unique {M : Type} (l : List M) (t : M → String) (c : String)
    (g : M → ℚ) (m0 : M) (hnd : (l.map t).Nodup) (hm : m0 ∈ l)
    (ht : t m0 = c) :
    (l.map fun m => if t m = c then g m else 0).sum = g m0 := by
  induction l with
  | nil => cases hm
  | cons a tl ih =>
    simp only [List.map_cons, List.nodup_cons] at hnd
    rcases List.mem_cons.mp hm with h0 | h0
    · subst h0
      have htl : ∀ m ∈ tl, t m ≠ c := by
        intro m hmem hc
        exact hnd.1 (ht ▸ hc ▸ List.mem_map_of_mem t hmem)
      simp only [List.map_cons, List.sum_cons, if_pos ht,
        sum_map_ite_zero tl t c g htl, add_zero]
    · have hac : t a ≠ c := by
        intro hc
        exact hnd.1 (hc ▸ ht ▸ List.mem_map_of_mem t h0)
      simp only [List.map_cons, List.sum_cons, if_neg hac,
        ih hnd.2 h0, zero_add]

/-! ## Weight lemmas -/

/-- The weight-assignment row transform does not touch the archetype key. -/
lemma archetype_key_assign (ds : List DataRecord) (r : DataRecord) :
    archetype_key (assign_material_combination_weight ds r) = archetype_key r :=
  rfl

/-- Filtering the weighted dataset by key is the map of the filter of the
original dataset. -/
lemma filter_key_weights (ds : List DataRecord) (k : String × String × String) :
    (calculate_material_combination_weights ds).filter
        (fun r => archetype_key r = k)
      = (ds.filter fun r => archetype_key r = k).map
          (assign_material_combination_weight ds) := by
  unfold calculate_material_combination_weights
  rw [List.filter_map]
  rfl

/-- Weighting does not change the per-group floor-area totals. -/
lemma total_area_weights (ds : List DataRecord) (k : String × String × String) :
    total_area_over_material_combinations
        (calculate_material_combination_weights ds) k
      = total_area_over_material_combinations ds k := by
  unfold total_area_over_material_combinations
  rw [filter_key_weights, List.map_map]
  rfl

/-- In a weighted dataset with positive areas, the weights of a nonempty
archetype group sum to exactly one. -/
lemma weight_sum_weights (ds : List DataRecord) (k : String × String × String)
    (hpos : ∀ r ∈ ds, 0 < r.average_gross_floor_area_m2_per_building)
    (hne : ∃ r ∈ ds, archetype_key r = k) :
    weight_sum (calculate_material_combination_weights ds) k = 1 := by
  unfold weight_sum
  rw [filter_key_weights, List.map_map]
  have hmap : ∀ r ∈ ds.filter (fun r => archetype_key r = k),
      ((·.material_combination_weight) ∘ assign_material_combination_weight ds) r
        = r.average_gross_floor_area_m2_per_building /
            total_area_over_material_combinations ds k := by
    intro r hr
    have hk : archetype_key r = k := by
      simpa using (List.mem_filter.mp hr).2
    simp [assign_material_combination_weight, hk]
  rw [List.map_congr_left hmap, sum_map_div]
  have hfil : ds.filter (fun r => archetype_key r = k) ≠ [] := by
    obtain ⟨r, hrds, hrk⟩ := hne
    exact List.ne_nil_of_mem (List.mem_filter.mpr ⟨hrds, by simpa using hrk⟩)
  have htot : 0 < total_area_over_material_combinations ds k := by
    unfold total_area_over_material_combinations
    exact sum_map_pos _ _
      (fun r hr => hpos r (List.mem_filter.mp hr).1) hfil
  exact div_self (ne_of_gt htot)

/-- An archetype group of a location absent from the data has weight sum 0. -/
lemma weight_sum_of_absent_location (ds : List DataRecord) (a b c : String)
    (h : ∀ r ∈ ds, r.location_id ≠ c) : weight_sum ds (a, b, c) = 0 := by
  unfold weight_sum
  have : ds.filter (fun r => archetype_key r = (a, b, c)) = [] := by
    rw [List.filter_eq_nil_iff]
    intro r hr hk
    exact h r hr (congrArg (fun p => p.2.2) (of_decide_eq_true hk))
  rw [this]
  rfl

/-- Splitting a weight sum across concatenation. -/
lemma weight_sum_append (A B : List DataRecord) (k : String × String × String) :
    weight_sum (A ++ B) k = weight_sum A k + weight_sum B k := by
  unfold weight_sum
  rw [List.filter_append, List.map_append, List.sum_append]

/-- A weight sum over a flattened list of segments is the sum of the
per-segment weight sums. -/
lemma weight_sum_flatMap {M : Type} (l : List M) (g : M → List DataRecord)
    (k : String × String × String) :
    weight_sum (l.flatMap g) k = (l.map fun m => weight_sum (g m) k).sum := by
  induction l with
  | nil => simp [weight_sum]
  | cons a t ih => simp [List.flatMap_cons, weight_sum_append, ih]

/-- The extrapolated copy of a record from the source country carries the
target country in its archetype key and keeps its weight. -/
lemma archetype_key_extrapolate_record (shp : String → String × String)
    (tag c1 c2 : String) (coeff : ℚ) (r : DataRecord)
    (h : r.location_id = c1) :
    archetype_key (extrapolate_record shp tag c1 c2 coeff r)
      = (r.building_type, r.building_period, c2) := by
  simp [extrapolate_record, archetype_key, h]

/-- Weight sum of one extrapolation segment: zero unless the group's
location is the segment's target country, in which case it equals the weight
sum of the corresponding source-country group. -/
lemma weight_sum_extrapolate_segment (shp : String → String × String)
    (tag : String) (W : List DataRecord) (c1 c2 : String) (coeff : ℚ)
    (a b c : String) :
    weight_sum ((W.filter fun r => r.location_id = c1).map
        (extrapolate_record shp tag c1 c2 coeff)) (a, b, c)
      = if c2 = c then weight_sum W (a, b, c1) else 0 := by
  by_cases hc : c2 = c
  · subst hc
    unfold weight_sum
    rw [List.filter_map, List.map_map]
    have hpred : ∀ r ∈ W.filter fun r => r.location_id = c1,
        ((fun s => decide (archetype_key s = (a, b, c2))) ∘
            extrapolate_record shp tag c1 c2 coeff) r
          = decide (archetype_key r = (a, b, c1)) := by
      intro r hr
      have hloc : r.location_id = c1 := by
        simpa using (List.mem_filter.mp hr).2
      simp only [Function.comp_apply,
        archetype_key_extrapolate_record shp tag c1 c2 coeff r hloc]
      by_cases hab : r.building_type = a ∧ r.building_period = b
      · simp [archetype_key, hab.1, hab.2, hloc]
      · rcases not_and_or.mp hab with h1 | h1 <;>
          simp [archetype_key, Prod.ext_iff, h1]
    rw [List.filter_congr hpred, List.filter_filter]
    have hmerge : ∀ r : DataRecord,
        (decide (archetype_key r = (a, b, c1)) &&
            decide (r.location_id = c1))
          = decide (archetype_key r = (a, b, c1)) := by
      intro r
      by_cases hk : archetype_key r = (a, b, c1)
      · have : r.location_id = c1 := congrArg (fun p => p.2.2) hk
        simp [hk, this]
      · simp [hk]
    simp only [hmerge]
    simp only [if_true]
    rfl
  · rw [if_neg hc]
    unfold weight_sum
    have : (((W.filter fun r => r.location_id = c1).map
        (extrapolate_record shp tag c1 c2 coeff)).filter
          fun r => archetype_key r = (a, b, c)) = [] := by
      rw [List.filter_eq_nil_iff]
      intro s hs hk
      obtain ⟨r, hr, hrs⟩ := List.mem_map.mp hs
      have hloc : r.location_id = c1 := by
        simpa using (List.mem_filter.mp hr).2
      have hkey := archetype_key_extrapolate_record shp tag c1 c2 coeff r hloc
      have : archetype_key s = (r.building_type, r.building_period, c2) := by
        rw [← hrs]
        exact hkey
      rw [this] at hk
      exact hc (congrArg (fun p => p.2.2) (of_decide_eq_true hk))
    rw [this]
    rfl

/-! ## Claim C1 -/

/-- C1: in the weighted dataset every record's `material_combination_weight`
is its floor area divided by the floor-area total of its
`(building_type, building_period, location_id)` group; when all areas are
positive, the weights of every nonempty group sum to exactly 1 (hence within
any floating-point tolerance); and the group sums remain 1 after
`extrapolate` appends synthetic records, provided the extrapolation targets
are genuinely new locations (absent from the data and pairwise distinct). -/
theorem material_combination_weight_invariant
    (shp : String → String × String) (ds : List DataRecord)
    (mappings : List (String × String × ℚ)) (tag : String) (year : Int) :
    (∀ r ∈ calculate_material_combination_weights ds,
        r.material_combination_weight
          = r.average_gross_floor_area_m2_per_building /
              total_area_over_material_combinations
                (calculate_material_combination_weights ds) (archetype_key r))
    ∧ ((∀ r ∈ ds, 0 < r.average_gross_floor_area_m2_per_building) →
        (∀ k : String × String × String, (∃ r ∈ ds, archetype_key r = k) →
          weight_sum (calculate_material_combination_weights ds) k = 1)
        ∧ ((∀ m ∈ mappings, ∀ r ∈ ds, r.location_id ≠ m.2.1) →
            (mappings.map fun m => m.2.1).Nodup →
            ∀ k : String × String × String,
              ((∃ r ∈ ds, archetype_key r = k) ∨
                (∃ m ∈ mappings, m.2.1 = k.2.2 ∧
                  ∃ r ∈ ds, archetype_key r = (k.1, k.2.1, m.1))) →
              weight_sum
                (extrapolate shp (calculate_material_combination_weights ds)
                  mappings tag year) k = 1)) := by
  constructor
  · intro r hr
    obtain ⟨r0, _, rfl⟩ := List.mem_map.mp hr
    rw [total_area_weights]
    rfl
  · intro hpos
    constructor
    · intro k hk
      exact weight_sum_weights ds k hpos hk
    · intro hfresh hnd k hk
      obtain ⟨a, b, c⟩ := k
      have hfreshW : ∀ m ∈ mappings,
          ∀ s ∈ calculate_material_combination_weights ds,
            s.location_id ≠ m.2.1 := by
        intro m hm s hs
        obtain ⟨r0, hr0, rfl⟩ := List.mem_map.mp hs
        exact hfresh m hm r0 hr0
      unfold extrapolate
      rw [weight_sum_append, weight_sum_flatMap]
      have hseg : (mappings.map fun m =>
          weight_sum (((calculate_material_combination_weights ds).filter
              fun r => r.location_id = m.1).map
            (extrapolate_record shp tag m.1 m.2.1 m.2.2)) (a, b, c)).sum
          = (mappings.map fun m => if m.2.1 = c then
              weight_sum (calculate_material_combination_weights ds)
                (a, b, m.1) else 0).sum := by
        congr 1
        apply List.map_congr_left
        intro m _
        exact weight_sum_extrapolate_segment shp tag _ m.1 m.2.1 m.2.2 a b c
      rw [hseg]
      rcases hk with ⟨r, hr, hrk⟩ | ⟨m0, hm0, hm0c, r, hr, hrk⟩
      · have hnotc : ∀ m ∈ mappings, m.2.1 ≠ c := by
          intro m hm hmc
          have hrc : r.location_id = c := congrArg (fun p => p.2.2) hrk
          exact hfresh m hm r hr (hrc.trans hmc.symm)
        rw [sum_map_ite_zero mappings (fun m => m.2.1) c _ hnotc,
          weight_sum_weights ds (a, b, c) hpos ⟨r, hr, hrk⟩, add_zero]
      · have hWzero :
            weight_sum (calculate_material_combination_weights ds)
              (a, b, c) = 0 := by
          apply weight_sum_of_absent_location
          intro s hs
          obtain ⟨r0, hr0, rfl⟩ := List.mem_map.mp hs
          intro hsc
          exact hfresh m0 hm0 r0 hr0 (hsc.trans hm0c.symm)
        rw [hWzero, sum_map_ite_unique mappings (fun m => m.2.1) c _ m0 hnd
          hm0 hm0c, weight_sum_weights ds (a, b, m0.1) hpos ⟨r, hr, hrk⟩,
          zero_add]

/-- Witness for C1 at a concrete two-record dataset with areas 100 and 300
and one extrapolation mapping from Austria to a fresh location. -/
theorem material_combination_weight_invariant_witness :
    (∀ r ∈ [rec1, rec2], 0 < r.average_gross_floor_area_m2_per_building)
    ∧ weight_sum (calculate_material_combination_weights [rec1, rec2])
        ("AB", "1980-1990", "AT") = 1
    ∧ weight_sum
        (extrapolate shp0 (calculate_material_combination_weights [rec1, rec2])
          [("AT", "CH", 1/2)] "Syn" 2030) ("AB", "1980-1990", "CH") = 1 := by
  have h := material_combination_weight_invariant shp0 [rec1, rec2]
    [("AT", "CH", 1/2)] "Syn" 2030
  have hpos : ∀ r ∈ [rec1, rec2],
      0 < r.average_gross_floor_area_m2_per_building := by decide
  refine ⟨hpos, (h.2 hpos).1 _ ⟨rec1, List.mem_cons_self rec1 [rec2], rfl⟩, ?_⟩
  exact (h.2 hpos).2 (by decide) (by decide) _
    (Or.inr ⟨("AT", "CH", 1/2), List.mem_cons_self _ [], rfl,
      rec1, List.mem_cons_self rec1 [rec2], rfl⟩)

/-! ## Claim C6 -/

/-- C6: `extrapolate` appends, for each mapping entry, exactly the
transformed copies of the source-country records: the output is the original
data followed by the per-entry segments, each segment contains one record
per matching source record, every synthetic record has the target location,
the substring-renamed building code, the scaled building count, the rebuilt
`building_stock` label, and all other carried columns unchanged, and a
source country with no matching records contributes the empty segment. -/
theorem extrapolate_spec (shp : String → String × String)
    (ds : List DataRecord) (mappings : List (String × String × ℚ))
    (tag : String) (year : Int) :
    extrapolate shp ds mappings tag year
        = ds ++ mappings.flatMap (fun m =>
            (ds.filter fun r => r.location_id = m.1).map
              (extrapolate_record shp tag m.1 m.2.1 m.2.2))
    ∧ (∀ c1 c2 : String, ∀ coeff : ℚ,
        ((ds.filter fun r => r.location_id = c1).map
            (extrapolate_record shp tag c1 c2 coeff)).length
          = (ds.filter fun r => r.location_id = c1).length)
    ∧ (∀ c1 c2 : String, ∀ coeff : ℚ, ∀ r : DataRecord,
        r.location_id = c1 →
          (extrapolate_record shp tag c1 c2 coeff r).location_id = c2
          ∧ (extrapolate_record shp tag c1 c2 coeff r).reference_building_code
              = r.reference_building_code.replace c1 c2
          ∧ (extrapolate_record shp tag c1 c2 coeff r).number_of_buildings
              = r.number_of_buildings * coeff
          ∧ (extrapolate_record shp tag c1 c2 coeff r).building_stock
              = tag ++ "_" ++ toString r.building_stock_year ++ "_" ++ c2
                  ++ "_" ++ r.category
          ∧ (extrapolate_record shp tag c1 c2 coeff r).building_type
              = r.building_type
          ∧ (extrapolate_record shp tag c1 c2 coeff r).building_period
              = r.building_period
          ∧ (extrapolate_record shp tag c1 c2 coeff r).building_stock_year
              = r.building_stock_year
          ∧ (extrapolate_record shp tag c1 c2 coeff
              r).average_gross_floor_area_m2_per_building
              = r.average_gross_floor_area_m2_per_building
          ∧ (extrapolate_record shp tag c1 c2 coeff
              r).material_combination_weight = r.material_combination_weight
          ∧ (extrapolate_record shp tag c1 c2 coeff r).phys = r.phys)
    ∧ (∀ c1 c2 : String, ∀ coeff : ℚ,
        (∀ r ∈ ds, r.location_id ≠ c1) →
          (ds.filter fun r => r.location_id = c1).map
            (extrapolate_record shp tag c1 c2 coeff) = []) := by
  refine ⟨rfl, fun c1 c2 coeff => List.length_map _ _, ?_, ?_⟩
  · intro c1 c2 coeff r h
    refine ⟨?_, rfl, rfl, ?_, rfl, rfl, rfl, rfl, rfl, rfl⟩
    · simp [extrapolate_record, h]
    · simp [extrapolate_record, h]
  · intro c1 c2 coeff h
    have : ds.filter (fun r => r.location_id = c1) = [] := by
      rw [List.filter_eq_nil_iff]
      intro r hr hc
      exact h r hr (of_decide_eq_true hc)
    rw [this]
    rfl

/-- Witness for C6 at a concrete record and mapping. -/
theorem extrapolate_spec_witness :
    rec1.location_id = "AT"
    ∧ (extrapolate_record shp0 "Syn" "AT" "CH" 2 rec1).location_id = "CH"
    ∧ (extrapolate_record shp0 "Syn" "AT" "CH" 2 rec1).number_of_buildings
        = rec1.number_of_buildings * 2
    ∧ (extrapolate_record shp0 "Syn" "AT" "CH" 2 rec1).phys = rec1.phys
    ∧ ([rec1].filter fun r => r.location_id = "DE").map
        (extrapolate_record shp0 "Syn" "DE" "FR" 1) = [] := by
  have h := extrapolate_spec shp0 [rec1] [("AT", "CH", 2)] "Syn" 2016
  have h3 := h.2.2.1 "AT" "CH" 2 rec1 rfl
  exact ⟨rfl, h3.1, h3.2.2.1, h3.2.2.2.2.2.2.2.2.2,
    h.2.2.2 "DE" "FR" 1 (by decide)⟩

/-! ## Claim C10 -/

/-- C10: the result of `extrapolate` does not depend on its `year`
argument; the synthetic records keep the source records' original
`building_stock_year` (the Python body never reads the parameter). -/
theorem extrapolate_independent_of_year (shp : String → String × String)
    (ds : List DataRecord) (mappings : List (String × String × ℚ))
    (tag : String) (y1 y2 : Int) :
    extrapolate shp ds mappings tag y1 = extrapolate shp ds mappings tag y2 :=
  rfl

/-! ## Claim C7 -/

/-- C7: dividing the three heating-system prevalency columns by their
row-wise sum makes them sum to exactly 1 whenever the row-wise sum is
nonzero; when the row-wise sum of the (nonnegative) prevalency fractions is
zero, each normalized value is NaN — a non-finite value, not an error. -/
theorem prevalency_normalization_spec (p1 p2 p3 : ℚ) :
    (p1 + p2 + p3 ≠ 0 →
      fadd (fadd (normalize_prevalency p1 p2 p3).1
          (normalize_prevalency p1 p2 p3).2.1)
        (normalize_prevalency p1 p2 p3).2.2 = FVal.num 1)
    ∧ (0 ≤ p1 → 0 ≤ p2 → 0 ≤ p3 → p1 + p2 + p3 = 0 →
        (normalize_prevalency p1 p2 p3).1 = FVal.nan
        ∧ (normalize_prevalency p1 p2 p3).2.1 = FVal.nan
        ∧ (normalize_prevalency p1 p2 p3).2.2 = FVal.nan) := by
  constructor
  · intro h
    simp only [normalize_prevalency, fdiv, if_neg h, fadd]
    rw [div_add_div_same, div_add_div_same, div_self h]
  · intro h1 h2 h3 h0
    have e1 : p1 = 0 := by linarith
    have e2 : p2 = 0 := by linarith
    have e3 : p3 = 0 := by linarith
    subst e1; subst e2; subst e3
    simp [normalize_prevalency, fdiv]

/-- Witness for C7: a nonzero-sum row and the all-zero degenerate row. -/
theorem prevalency_normalization_spec_witness :
    ((1 : ℚ) + 1 + 2 ≠ 0
      ∧ fadd (fadd (normalize_prevalency 1 1 2).1
            (normalize_prevalency 1 1 2).2.1)
          (normalize_prevalency 1 1 2).2.2 = FVal.num 1)
    ∧ ((0 : ℚ) + 0 + 0 = 0
      ∧ (normalize_prevalency 0 0 0).1 = FVal.nan) :=
  ⟨⟨by norm_num, (prevalency_normalization_spec 1 1 2).1 (by norm_num)⟩,
    ⟨by norm_num,
      ((prevalency_normalization_spec 0 0 0).2 le_rfl le_rfl le_rfl
        (by norm_num)).1⟩⟩

/-! ## Claim C5 -/

/-- Counterexample to C5 as stated: the source's `dropna()` drops every
expanded row containing any NaN cell, not only rows with a missing heat
source.  For a record whose first slot has NaN prevalency but a present
heat source, the expanded row is dropped even though the claim says it must
be preserved, and the aggregated table differs from the claimed one. -/
theorem building_stock_statistics_drop_counterexample :
    dropna (building_stock_statistics_rows [recNaN])
        ≠ claimed_drop (building_stock_statistics_rows [recNaN])
    ∧ calculate_building_stock_statistics [recNaN]
        ("AmBIENCe_2016_AT_res", "AB", "1980-1990", "AT", "Gas")
      ≠ claimed_building_stock_statistics [recNaN]
        ("AmBIENCe_2016_AT_res", "AB", "1980-1990", "AT", "Gas") := by
  constructor
  · decide
  · decide

/-- Summing `fadd` over finite values is exact rational summation. -/
lemma foldr_fadd_of_finite (l : List FVal)
    (h : ∀ v ∈ l, v.isfinite = true) :
    l.foldr fadd (FVal.num 0) = FVal.num ((l.map FVal.toQ).sum) := by
  induction l with
  | nil => simp
  | cons a t ih =>
    have ha := h a (List.mem_cons_self a t)
    cases a with
    | num q =>
      rw [List.foldr_cons, ih fun v hv => h v (List.mem_cons_of_mem _ hv)]
      simp [fadd, FVal.toQ]
    | inf => cases ha
    | ninf => cases ha
    | nan => cases ha

/-- C5 (amended): every record expands into exactly three heating-slot rows
with `number_of_buildings` scaled by the slot prevalency; the drop step
removes exactly the rows containing a NaN cell — rows with a missing heat
source and also rows whose weighted `number_of_buildings` is NaN; and the
grouped aggregation sums `number_of_buildings` and averages the floor area
over the kept rows of the group. -/
theorem building_stock_statistics_amended (ds : List DataRecord)
    (k : String × String × String × String × String) :
    (building_stock_statistics_rows ds).length = 3 * ds.length
    ∧ (∀ row : BssRow,
        row ∈ dropna (building_stock_statistics_rows ds) ↔
          row ∈ building_stock_statistics_rows ds
          ∧ row.heat_source ≠ none
          ∧ row.number_of_buildings.isnan = false)
    ∧ ((∀ row ∈ bss_group ds k,
          (BssRow.number_of_buildings row).isfinite = true) →
        (calculate_building_stock_statistics ds k).1
          = FVal.num (((bss_group ds k).map
              fun row => (BssRow.number_of_buildings row).toQ).sum))
    ∧ (bss_group ds k ≠ [] →
        (calculate_building_stock_statistics ds k).2
          = FVal.num
              ((((bss_group ds k).map
                (·.average_gross_floor_area_m2_per_building)).sum)
                / ((bss_group ds k).length : ℚ))) := by
  refine ⟨?_, ?_, ?_, ?_⟩
  · unfold building_stock_statistics_rows
    rw [List.length_flatMap]
    induction ds with
    | nil => rfl
    | cons r t ih =>
      simp only [List.map_cons, List.sum_cons, ih, Function.comp]
      simp [Nat.mul_succ, Nat.mul_add]
      omega
  · intro row
    unfold dropna row_has_nan
    rw [List.mem_filter]
    constructor
    · rintro ⟨hmem, hcond⟩
      refine ⟨hmem, ?_, ?_⟩
      · intro hnone
        rw [hnone] at hcond
        simp at hcond
      · rcases h : row.number_of_buildings.isnan with _ | _
        · rfl
        · rw [h] at hcond
          simp at hcond
    · rintro ⟨hmem, hns, hnn⟩
      refine ⟨hmem, ?_⟩
      have : row.heat_source.isNone = false := by
        cases hh : row.heat_source
        · exact absurd hh hns
        · rfl
      rw [this, hnn]
      rfl
  · intro hfin
    unfold calculate_building_stock_statistics
    rw [foldr_fadd_of_finite _ fun v hv => ?_, List.map_map]
    · rfl
    · obtain ⟨row, hrow, rfl⟩ := List.mem_map.mp hv
      exact hfin row hrow
  · intro hne
    unfold calculate_building_stock_statistics
    have hlen : ((bss_group ds k).length : ℚ) ≠ 0 :=
      Nat.cast_ne_zero.mpr fun h0 => hne (List.length_eq_zero.mp h0)
    simp only [fdiv, if_neg hlen]

/-- Witness for C5 (amended) at a concrete one-record dataset with a valid
first heating-system slot. -/
theorem building_stock_statistics_amended_witness :
    (∀ row ∈ bss_group [rec1]
        ("AmBIENCe_2016_AT_res", "AB", "1980-1990", "AT", "Gas"),
      (BssRow.number_of_buildings row).isfinite = true)
    ∧ (calculate_building_stock_statistics [rec1]
          ("AmBIENCe_2016_AT_res", "AB", "1980-1990", "AT", "Gas")).1
        = FVal.num (((bss_group [rec1]
            ("AmBIENCe_2016_AT_res", "AB", "1980-1990", "AT", "Gas")).map
              fun row => (BssRow.number_of_buildings row).toQ).sum)
    ∧ bss_group [rec1]
        ("AmBIENCe_2016_AT_res", "AB", "1980-1990", "AT", "Gas") ≠ []
    ∧ (calculate_building_stock_statistics [rec1]
          ("AmBIENCe_2016_AT_res", "AB", "1980-1990", "AT", "Gas")).2
        = FVal.num
            ((((bss_group [rec1]
              ("AmBIENCe_2016_AT_res", "AB", "1980-1990", "AT", "Gas")).map
                (·.average_gross_floor_area_m2_per_building)).sum)
              / ((bss_group [rec1]
                ("AmBIENCe_2016_AT_res", "AB", "1980-1990",
                  "AT", "Gas")).length : ℚ)) := by
  have h := building_stock_statistics_amended [rec1]
    ("AmBIENCe_2016_AT_res", "AB", "1980-1990", "AT", "Gas")
  exact ⟨by decide, h.2.2.1 (by decide), by decide, h.2.2.2 (by decide)⟩

/-! ## Claim C3 -/

/-- C3: for nonnegative material properties, the effective thermal mass is
`shc / sqrt(1 + (2π/T)² shc² R²)`, where `shc` is the base material's
`thickness · density · specific heat` plus — exactly when the structure type
is not internal — half of the insulation's
`thickness · density · specific heat`. -/
theorem effective_thermal_mass_formula (cfg : ThermalConfig)
    (stT : String → StructureTypeRow) (r : PhysRow) (st : String)
    (hT : 0 < cfg.period_of_variations)
    (h1 : 0 ≤ (r.cols (stT st).mapping).material_thickness_m)
    (h2 : 0 ≤ (r.cols (stT st).mapping).material_density_kg_m3)
    (h3 : 0 ≤ (r.cols (stT st).mapping).material_specific_heat_capacity_J_kgK)
    (h4 : 0 ≤ (r.cols (stT st).mapping).insulation_material_thickness_m)
    (h5 : 0 ≤ (r.cols (stT st).mapping).insulation_material_density_kg_m3)
    (h6 : 0 ≤ (r.cols
      (stT st).mapping).insulation_material_specific_heat_capacity_J_kgK) :
    calculate_weighted_effective_thermal_mass cfg stT r st
      = areal_heat_capacity stT r st /
          Real.sqrt (1 +
            (2 * Real.pi / cfg.period_of_variations) ^ 2 *
              areal_heat_capacity stT r st ^ 2 *
              (stT st).interior_resistance_m2K_W ^ 2)
    ∧ areal_heat_capacity stT r st
      = (r.cols (stT st).mapping).material_thickness_m *
          (r.cols (stT st).mapping).material_density_kg_m3 *
          (r.cols (stT st).mapping).material_specific_heat_capacity_J_kgK
        + (if (stT st).is_internal then 0 else
            0.5 * (r.cols (stT st).mapping).insulation_material_thickness_m *
              (r.cols (stT st).mapping).insulation_material_density_kg_m3 *
              (r.cols
                (stT st).mapping).insulation_material_specific_heat_capacity_J_kgK) := by
  have hs : 0 ≤ areal_heat_capacity stT r st := by
    unfold areal_heat_capacity
    refine add_nonneg (mul_nonneg (mul_nonneg h1 h2) h3) ?_
    refine mul_nonneg (mul_nonneg (mul_nonneg (mul_nonneg ?_ (by norm_num))
      h4) h5) h6
    split <;> norm_num
  constructor
  · unfold calculate_weighted_effective_thermal_mass effective_thermal_mass
    rw [Real.sqrt_div (sq_nonneg _), Real.sqrt_sq hs]
  · unfold areal_heat_capacity
    cases hin : (stT st).is_internal <;> simp [hin]

/-- Witness for C3 at the concrete default configuration and material
columns. -/
theorem effective_thermal_mass_formula_witness :
    (0 : ℝ) < cfg0.period_of_variations
    ∧ calculate_weighted_effective_thermal_mass cfg0 stT0 physRow1 "wall"
        = areal_heat_capacity stT0 physRow1 "wall" /
            Real.sqrt (1 +
              (2 * Real.pi / cfg0.period_of_variations) ^ 2 *
                areal_heat_capacity stT0 physRow1 "wall" ^ 2 *
                (stT0 "wall").interior_resistance_m2K_W ^ 2) := by
  have h := effective_thermal_mass_formula cfg0 stT0 physRow1 "wall"
    (by norm_num [cfg0]) (by norm_num [physRow1, stT0, stRow0, mat0])
    (by norm_num [physRow1, stT0, stRow0, mat0])
    (by norm_num [physRow1, stT0, stRow0, mat0])
    (by norm_num [physRow1, stT0, stRow0, mat0])
    (by norm_num [physRow1, stT0, stRow0, mat0])
    (by norm_num [physRow1, stT0, stRow0, mat0])
  exact ⟨by norm_num [cfg0], h.1⟩

/-! ## Claim C8 -/

/-- C8: for fixed nonnegative interior resistance and positive period, the
effective thermal mass is monotonically non-decreasing in the areal heat
capacity over nonnegative values, and for fixed nonnegative areal heat
capacity it converges to that capacity as the period of variations tends to
infinity. -/
theorem effective_thermal_mass_monotone_and_limit (R T : ℝ) (hR : 0 ≤ R)
    (hT : 0 < T) :
    (∀ s1 s2 : ℝ, 0 ≤ s1 → s1 ≤ s2 →
      effective_thermal_mass T R s1 ≤ effective_thermal_mass T R s2)
    ∧ (∀ s : ℝ, 0 ≤ s →
      Filter.Tendsto (fun period => effective_thermal_mass period R s)
        Filter.atTop (nhds s)) := by
  constructor
  · intro s1 s2 hs1 h12
    unfold effective_thermal_mass
    apply Real.sqrt_le_sqrt
    have hD1 : (0:ℝ) < 1 + (2 * Real.pi / T) ^ 2 * s1 ^ 2 * R ^ 2 := by
      positivity
    have hD2 : (0:ℝ) < 1 + (2 * Real.pi / T) ^ 2 * s2 ^ 2 * R ^ 2 := by
      positivity
    rw [div_le_div_iff₀ hD1 hD2]
    nlinarith [pow_le_pow_left₀ hs1 h12 2, sq_nonneg (2 * Real.pi / T),
      sq_nonneg R]
  · intro s hs
    have h1 : Filter.Tendsto (fun period : ℝ => 2 * Real.pi / period)
        Filter.atTop (nhds 0) :=
      Filter.Tendsto.div_atTop tendsto_const_nhds Filter.tendsto_id
    have h4 : Filter.Tendsto
        (fun period : ℝ => s ^ 2 /
          (1 + (2 * Real.pi / period) ^ 2 * s ^ 2 * R ^ 2))
        Filter.atTop
        (nhds (s ^ 2 / (1 + (0:ℝ) ^ 2 * s ^ 2 * R ^ 2))) := by
      refine Filter.Tendsto.div tendsto_const_nhds ?_ (by norm_num)
      exact Filter.Tendsto.add tendsto_const_nhds
        (((h1.pow 2).mul_const (s ^ 2)).mul_const (R ^ 2))
    have h5 := h4.sqrt
    have hval : Real.sqrt (s ^ 2 / (1 + (0:ℝ) ^ 2 * s ^ 2 * R ^ 2)) = s := by
      norm_num [Real.sqrt_sq hs]
    rw [hval] at h5
    simpa [effective_thermal_mass] using h5

/-- Witness for C8 with resistance 0 and period 1. -/
theorem effective_thermal_mass_monotone_and_limit_witness :
    (0 : ℝ) ≤ 0 ∧ (0 : ℝ) < 1
    ∧ ((∀ s1 s2 : ℝ, 0 ≤ s1 → s1 ≤ s2 →
        effective_thermal_mass 1 0 s1 ≤ effective_thermal_mass 1 0 s2)
      ∧ (∀ s : ℝ, 0 ≤ s →
        Filter.Tendsto (fun period => effective_thermal_mass period 0 s)
          Filter.atTop (nhds s))) :=
  ⟨le_rfl, by norm_num,
    effective_thermal_mass_monotone_and_limit 0 1 le_rfl (by norm_num)⟩

/-! ## Claim C4 -/

/-- C4: for positive material and insulation resistances, a non-internal
structure type, an interior node depth between 0 and 1, and nonnegative
fixed surface resistances, the ground-coupled (base floor) branch returns a
strictly positive to-ground U-value and a to-ambient-air U-value of exactly
0, while every other non-internal branch returns a strictly positive
to-ambient-air U-value and a to-ground U-value of exactly 0. -/
theorem U_value_branch_signs (cfg : ThermalConfig)
    (stT : String → StructureTypeRow) (r : PhysRow) (st : String)
    (hin : (stT st).is_internal = false)
    (hm : 0 < material_resistance stT r st)
    (hi : 0 < insulation_resistance stT r st)
    (hd0 : 0 ≤ cfg.interior_node_depth)
    (hd1 : cfg.interior_node_depth ≤ 1)
    (hri : 0 ≤ (stT st).interior_resistance_m2K_W)
    (hre : 0 ≤ (stT st).exterior_resistance_m2K_W) :
    (st = "base_floor" →
      0 < (calculate_U_values cfg stT r st).2.1
      ∧ (calculate_U_values cfg stT r st).1 = 0)
    ∧ (st ≠ "base_floor" →
      0 < (calculate_U_values cfg stT r st).1
      ∧ (calculate_U_values cfg stT r st).2.1 = 0) := by
  set mR := material_resistance stT r st with hmR
  set iR := insulation_resistance stT r st with hiR
  set fint := (stT st).interior_resistance_m2K_W with hfint
  set fext := (stT st).exterior_resistance_m2K_W with hfext
  set d := cfg.interior_node_depth with hd
  constructor
  · intro hbf
    simp only [calculate_U_values, hin, Bool.false_eq_true, if_false,
      if_pos hbf]
    refine ⟨?_, trivial⟩
    apply one_div_pos.mpr
    have hf : (0:ℝ) < mR + iR + fint := by linarith
    have h1 : (0:ℝ) < 0.7044 + (mR + iR + fint) := by linarith
    have h2 : (0:ℝ) < 2.818 + (mR + iR + fint) := by linarith
    have hc : (0:ℝ) < 0.114 / (0.7044 + (mR + iR + fint))
        + 0.8768 / (2.818 + (mR + iR + fint)) :=
      add_pos (div_pos (by norm_num) h1) (div_pos (by norm_num) h2)
    have ha : 0.114 / (0.7044 + (mR + iR + fint)) * (mR + iR + fint)
        < 0.114 := by
      rw [div_mul_eq_mul_div, div_lt_iff₀ h1]
      nlinarith
    have hb : 0.8768 / (2.818 + (mR + iR + fint)) * (mR + iR + fint)
        < 0.8768 := by
      rw [div_mul_eq_mul_div, div_lt_iff₀ h2]
      nlinarith
    have hcf : (0.114 / (0.7044 + (mR + iR + fint))
        + 0.8768 / (2.818 + (mR + iR + fint))) * (mR + iR + fint) < 1 := by
      have expand : (0.114 / (0.7044 + (mR + iR + fint))
          + 0.8768 / (2.818 + (mR + iR + fint))) * (mR + iR + fint)
          = 0.114 / (0.7044 + (mR + iR + fint)) * (mR + iR + fint)
            + 0.8768 / (2.818 + (mR + iR + fint)) * (mR + iR + fint) := by
        ring
      rw [expand]
      linarith
    have hfc : mR + iR + fint
        < 1 / (0.114 / (0.7044 + (mR + iR + fint))
            + 0.8768 / (2.818 + (mR + iR + fint))) := by
      rw [lt_div_iff₀ hc]
      linarith [hcf]
    nlinarith [mul_nonneg (sub_nonneg.mpr hd1) (le_of_lt hm),
      mul_nonneg (sub_nonneg.mpr hd1) (le_of_lt hi),
      mul_nonneg hd0 (le_of_lt hi)]
  · intro hnb
    simp only [calculate_U_values, hin, Bool.false_eq_true, if_false,
      if_neg hnb]
    refine ⟨?_, trivial⟩
    apply one_div_pos.mpr
    nlinarith [mul_nonneg (sub_nonneg.mpr hd1) (le_of_lt hm),
      mul_nonneg (sub_nonneg.mpr hd1) (le_of_lt hi),
      mul_nonneg hd0 (le_of_lt hi)]

/-- Witness for C4 at the default configuration, positive resistances, and
a non-internal structure type that is not the base floor. -/
theorem U_value_branch_signs_witness :
    (stT0 "wall").is_internal = false
    ∧ 0 < material_resistance stT0 physRow1 "wall"
    ∧ 0 < insulation_resistance stT0 physRow1 "wall"
    ∧ ("wall" ≠ "base_floor"
      ∧ 0 < (calculate_U_values cfg0 stT0 physRow1 "wall").1
      ∧ (calculate_U_values cfg0 stT0 physRow1 "wall").2.1 = 0) := by
  have hm : 0 < material_resistance stT0 physRow1 "wall" := by
    norm_num [material_resistance, stT0, stRow0, physRow1, mat0]
  have hi : 0 < insulation_resistance stT0 physRow1 "wall" := by
    norm_num [insulation_resistance, stT0, stRow0, physRow1, mat0]
  have h := U_value_branch_signs cfg0 stT0 physRow1 "wall" rfl hm hi
    (by norm_num [cfg0]) (by norm_num [cfg0])
    (by norm_num [stT0, stRow0]) (by norm_num [stT0, stRow0])
  have hne : "wall" ≠ "base_floor" := by decide
  exact ⟨rfl, hm, hi, hne, h.2 hne⟩

/-! ## Claim C9 -/

/-- Closed form of the total U-value in each branch of
`calculate_U_values`; the interior-node-depth terms cancel. -/
lemma total_U_value_formula (cfg : ThermalConfig)
    (stT : String → StructureTypeRow) (r : PhysRow) (st : String) :
    (calculate_U_values cfg stT r st).2.2.2
      = if (stT st).is_internal then
          1 / (material_resistance stT r st
            + (stT st).interior_resistance_m2K_W
            + (stT st).exterior_resistance_m2K_W)
        else if st = "base_floor" then
          0.114 / (0.7044 + (material_resistance stT r st
              + insulation_resistance stT r st
              + (stT st).interior_resistance_m2K_W))
            + 0.8768 / (2.818 + (material_resistance stT r st
              + insulation_resistance stT r st
              + (stT st).interior_resistance_m2K_W))
        else
          1 / (material_resistance stT r st + insulation_resistance stT r st
            + (stT st).interior_resistance_m2K_W
            + (stT st).exterior_resistance_m2K_W) := by
  cases hin : (stT st).is_internal
  · simp only [calculate_U_values, hin, Bool.false_eq_true, if_false]
    by_cases hbf : st = "base_floor"
    · simp only [if_pos hbf]
      have hcancel : cfg.interior_node_depth *
            (material_resistance stT r st
              + 0.5 * insulation_resistance stT r st)
          + (stT st).interior_resistance_m2K_W
          + (1 / (0.114 / (0.7044 + (material_resistance stT r st
                + insulation_resistance stT r st
                + (stT st).interior_resistance_m2K_W))
              + 0.8768 / (2.818 + (material_resistance stT r st
                + insulation_resistance stT r st
                + (stT st).interior_resistance_m2K_W)))
            - (cfg.interior_node_depth *
                (material_resistance stT r st
                  + 0.5 * insulation_resistance stT r st)
              + (stT st).interior_resistance_m2K_W))
          = 1 / (0.114 / (0.7044 + (material_resistance stT r st
                + insulation_resistance stT r st
                + (stT st).interior_resistance_m2K_W))
              + 0.8768 / (2.818 + (material_resistance stT r st
                + insulation_resistance stT r st
                + (stT st).interior_resistance_m2K_W))) := by
        ring
      rw [hcancel, one_div_one_div]
    · simp only [if_neg hbf]
      congr 1
      ring
  · simp only [calculate_U_values, hin, if_true]
    congr 1
    ring

/-- C9: the total U-value does not depend on the `interior_node_depth`
configuration parameter, and in each branch it equals the closed form in
which the interior-resistance terms cancel: `1/(matR + Rint + Rext)` for
internal structures, the unmodified two-term Kissock ground conductance for
the base floor, and `1/(matR + insR + Rint + Rext)` otherwise. -/
theorem total_U_value_independent_of_interior_node_depth
    (stT : String → StructureTypeRow) (r : PhysRow) (st : String)
    (hmc : (r.cols (stT st).mapping).material_thermal_conductivity_W_mK ≠ 0)
    (hic : (r.cols
      (stT st).mapping).insulation_material_thermal_conductivity_W_mK ≠ 0) :
    (∀ d1 d2 T1 T2 : ℝ,
      (calculate_U_values ⟨d1, T1⟩ stT r st).2.2.2
        = (calculate_U_values ⟨d2, T2⟩ stT r st).2.2.2)
    ∧ (∀ cfg : ThermalConfig,
      (calculate_U_values cfg stT r st).2.2.2
        = if (stT st).is_internal then
            1 / (material_resistance stT r st
              + (stT st).interior_resistance_m2K_W
              + (stT st).exterior_resistance_m2K_W)
          else if st = "base_floor" then
            0.114 / (0.7044 + (material_resistance stT r st
                + insulation_resistance stT r st
                + (stT st).interior_resistance_m2K_W))
              + 0.8768 / (2.818 + (material_resistance stT r st
                + insulation_resistance stT r st
                + (stT st).interior_resistance_m2K_W))
          else
            1 / (material_resistance stT r st + insulation_resistance stT r st
              + (stT st).interior_resistance_m2K_W
              + (stT st).exterior_resistance_m2K_W)) := by
  constructor
  · intro d1 d2 T1 T2
    rw [total_U_value_formula, total_U_value_formula]
  · intro cfg
    exact total_U_value_formula cfg stT r st

/-- Witness for C9 at concrete nonzero conductivities. -/
theorem total_U_value_independent_witness :
    (physRow1.cols (stT0 "wall").mapping).material_thermal_conductivity_W_mK
        ≠ 0
    ∧ ∀ d1 d2 T1 T2 : ℝ,
        (calculate_U_values ⟨d1, T1⟩ stT0 physRow1 "wall").2.2.2
          = (calculate_U_values ⟨d2, T2⟩ stT0 physRow1 "wall").2.2.2 := by
  have hmc : (physRow1.cols
      (stT0 "wall").mapping).material_thermal_conductivity_W_mK ≠ 0 := by
    norm_num [physRow1, stT0, stRow0, mat0]
  have hic : (physRow1.cols
      (stT0 "wall").mapping).insulation_material_thermal_conductivity_W_mK
      ≠ 0 := by
    norm_num [physRow1, stT0, stRow0, mat0]
  exact ⟨hmc,
    (total_U_value_independent_of_interior_node_depth stT0 physRow1 "wall"
      hmc hic).1⟩

/-! ## Claim C2 -/

/-- Group sums of the structure-statistics rows, parametric in the numeric
column being aggregated. -/
lemma structure_statistics_group_sum (cfg : ThermalConfig)
    (stT : String → StructureTypeRow) (stIndex : List String)
    (ds : List PhysRow) (a b c st : String) (hc : stIndex.count st = 1)
    (proj : StructureStatisticsRow → ℝ) :
    (((structure_statistics_rows cfg stT stIndex ds).filter
        fun row => row.1 = (a, b, c, st)).map fun row => proj row.2).sum
      = ((ds.filter fun r =>
            (r.building_type, r.building_period, r.location_id)
              = (a, b, c)).map
          fun r => proj (structure_statistics_values cfg stT r st)).sum := by
  induction ds with
  | nil => rfl
  | cons r t ih =>
    unfold structure_statistics_rows at ih ⊢
    rw [List.flatMap_cons, List.filter_append, List.map_append,
      List.sum_append, ih]
    by_cases hk :
        (r.building_type, r.building_period, r.location_id) = (a, b, c)
    · obtain ⟨ha, hb, hc3⟩ :
          r.building_type = a ∧ r.building_period = b
            ∧ r.location_id = c := by
        simpa [Prod.ext_iff] using hk
      have hfilter :
          ((stIndex.map fun st' =>
              ((r.building_type, r.building_period, r.location_id, st'),
                structure_statistics_values cfg stT r st')).filter
            fun row => row.1 = (a, b, c, st))
          = (stIndex.filter fun st' => st' = st).map fun st' =>
              ((r.building_type, r.building_period, r.location_id, st'),
                structure_statistics_values cfg stT r st') := by
        rw [List.filter_map]
        congr 1
        apply List.filter_congr
        intro st' _
        apply decide_eq_decide.mpr
        simp [Prod.ext_iff, ha, hb, hc3]
      rw [hfilter, List.filter_eq, hc]
      have hrhs : ((r :: t).filter fun s =>
          (s.building_type, s.building_period, s.location_id) = (a, b, c))
          = r :: (t.filter fun s =>
            (s.building_type, s.building_period, s.location_id)
              = (a, b, c)) := by
        simp [List.filter_cons, ha, hb, hc3]
      rw [hrhs]
      simp
    · have hnil :
          ((stIndex.map fun st' =>
              ((r.building_type, r.building_period, r.location_id, st'),
                structure_statistics_values cfg stT r st')).filter
            fun row => row.1 = (a, b, c, st)) = [] := by
        rw [List.filter_eq_nil_iff]
        intro row hrow hmem
        obtain ⟨st', _, rfl⟩ := List.mem_map.mp hrow
        have h := of_decide_eq_true hmem
        apply hk
        simp only [Prod.ext_iff] at h ⊢
        exact ⟨h.1, h.2.1, h.2.2.1⟩
      have hrhs : ((r :: t).filter fun s =>
          (s.building_type, s.building_period, s.location_id) = (a, b, c))
          = (t.filter fun s =>
            (s.building_type, s.building_period, s.location_id)
              = (a, b, c)) := by
        have hk2 : ¬(r.building_type = a ∧ r.building_period = b
            ∧ r.location_id = c) := by
          simpa [Prod.ext_iff] using hk
        simp [List.filter_cons, hk2]
      rw [hnil, hrhs]
      simp

/-- The grouped structure-statistics row at one key, column by column, as a
weighted sum over the records of the archetype group. -/
lemma calculate_structure_statistics_eq (cfg : ThermalConfig)
    (stT : String → StructureTypeRow) (stIndex : List String)
    (ds : List PhysRow) (a b c st : String) (hc : stIndex.count st = 1) :
    calculate_structure_statistics cfg stT stIndex ds (a, b, c, st)
      = { design_U_value_W_m2K :=
            ((ds.filter fun r =>
                (r.building_type, r.building_period, r.location_id)
                  = (a, b, c)).map fun r =>
              r.material_combination_weight *
                (r.cols (stT st).mapping).u_value_W_m2K).sum
          effective_thermal_mass_J_m2K :=
            ((ds.filter fun r =>
                (r.building_type, r.building_period, r.location_id)
                  = (a, b, c)).map fun r =>
              r.material_combination_weight *
                calculate_weighted_effective_thermal_mass cfg stT r st).sum
          linear_thermal_bridges_W_mK :=
            ((ds.filter fun r =>
                (r.building_type, r.building_period, r.location_id)
                  = (a, b, c)).map fun r =>
              r.material_combination_weight *
                (stT st).linear_thermal_bridge_W_mK).sum
          external_U_value_to_ambient_air_W_m2K :=
            ((ds.filter fun r =>
                (r.building_type, r.building_period, r.location_id)
                  = (a, b, c)).map fun r =>
              r.material_combination_weight *
                (calculate_U_values cfg stT r st).1).sum
          external_U_value_to_ground_W_m2K :=
            ((ds.filter fun r =>
                (r.building_type, r.building_period, r.location_id)
                  = (a, b, c)).map fun r =>
              r.material_combination_weight *
                (calculate_U_values cfg stT r st).2.1).sum
          internal_U_value_to_structure_W_m2K :=
            ((ds.filter fun r =>
                (r.building_type, r.building_period, r.location_id)
                  = (a, b, c)).map fun r =>
              r.material_combination_weight *
                (calculate_U_values cfg stT r st).2.2.1).sum
          total_U_value_W_m2K :=
            ((ds.filter fun r =>
                (r.building_type, r.building_period, r.location_id)
                  = (a, b, c)).map fun r =>
              r.material_combination_weight *
                (calculate_U_values cfg stT r st).2.2.2).sum } := by
  simp only [calculate_structure_statistics]
  congr 1 <;>
    · rw [List.map_map]
      exact structure_statistics_group_sum cfg stT stIndex ds a b c st hc _

/-- C2: the structure-statistics table multiplies every numeric quantity of
every expanded (record, structure type) row by the record's
`material_combination_weight` before grouping, and the grouped value is the
sum of the weighted values over the archetype group; in particular for a
two-record group with weights 1/4 and 3/4 every output column equals
`0.25 v₁ + 0.75 v₂` for the corresponding physical quantity `v`. -/
theorem structure_statistics_weighted_aggregation (cfg : ThermalConfig)
    (stT : String → StructureTypeRow) (stIndex : List String)
    (ds : List PhysRow) (a b c st : String) (hc : stIndex.count st = 1) :
    calculate_structure_statistics cfg stT stIndex ds (a, b, c, st)
      = { design_U_value_W_m2K :=
            ((ds.filter fun r =>
                (r.building_type, r.building_period, r.location_id)
                  = (a, b, c)).map fun r =>
              r.material_combination_weight *
                (r.cols (stT st).mapping).u_value_W_m2K).sum
          effective_thermal_mass_J_m2K :=
            ((ds.filter fun r =>
                (r.building_type, r.building_period, r.location_id)
                  = (a, b, c)).map fun r =>
              r.material_combination_weight *
                calculate_weighted_effective_thermal_mass cfg stT r st).sum
          linear_thermal_bridges_W_mK :=
            ((ds.filter fun r =>
                (r.building_type, r.building_period, r.location_id)
                  = (a, b, c)).map fun r =>
              r.material_combination_weight *
                (stT st).linear_thermal_bridge_W_mK).sum
          external_U_value_to_ambient_air_W_m2K :=
            ((ds.filter fun r =>
                (r.building_type, r.building_period, r.location_id)
                  = (a, b, c)).map fun r =>
              r.material_combination_weight *
                (calculate_U_values cfg stT r st).1).sum
          external_U_value_to_ground_W_m2K :=
            ((ds.filter fun r =>
                (r.building_type, r.building_period, r.location_id)
                  = (a, b, c)).map fun r =>
              r.material_combination_weight *
                (calculate_U_values cfg stT r st).2.1).sum
          internal_U_value_to_structure_W_m2K :=
            ((ds.filter fun r =>
                (r.building_type, r.building_period, r.location_id)
                  = (a, b, c)).map fun r =>
              r.material_combination_weight *
                (calculate_U_values cfg stT r st).2.2.1).sum
          total_U_value_W_m2K :=
            ((ds.filter fun r =>
                (r.building_type, r.building_period, r.location_id)
                  = (a, b, c)).map fun r =>
              r.material_combination_weight *
                (calculate_U_values cfg stT r st).2.2.2).sum }
    ∧ (∀ u v : PhysRow,
        (u.building_type, u.building_period, u.location_id) = (a, b, c) →
        (v.building_type, v.building_period, v.location_id) = (a, b, c) →
        u.material_combination_weight = 1/4 →
        v.material_combination_weight = 3/4 →
        calculate_structure_statistics cfg stT stIndex [u, v] (a, b, c, st)
          = { design_U_value_W_m2K :=
                1/4 * (u.cols (stT st).mapping).u_value_W_m2K
                  + 3/4 * (v.cols (stT st).mapping).u_value_W_m2K
              effective_thermal_mass_J_m2K :=
                1/4 * calculate_weighted_effective_thermal_mass cfg stT u st
                  + 3/4 * calculate_weighted_effective_thermal_mass cfg stT
                      v st
              linear_thermal_bridges_W_mK :=
                1/4 * (stT st).linear_thermal_bridge_W_mK
                  + 3/4 * (stT st).linear_thermal_bridge_W_mK
              external_U_value_to_ambient_air_W_m2K :=
                1/4 * (calculate_U_values cfg stT u st).1
                  + 3/4 * (calculate_U_values cfg stT v st).1
              external_U_value_to_ground_W_m2K :=
                1/4 * (calculate_U_values cfg stT u st).2.1
                  + 3/4 * (calculate_U_values cfg stT v st).2.1
              internal_U_value_to_structure_W_m2K :=
                1/4 * (calculate_U_values cfg stT u st).2.2.1
                  + 3/4 * (calculate_U_values cfg stT v st).2.2.1
              total_U_value_W_m2K :=
                1/4 * (calculate_U_values cfg stT u st).2.2.2
                  + 3/4 * (calculate_U_values cfg stT v st).2.2.2 }) := by
  refine ⟨calculate_structure_statistics_eq cfg stT stIndex ds a b c st hc,
    ?_⟩
  intro u v hku hkv hwu hwv
  rw [calculate_structure_statistics_eq cfg stT stIndex [u, v] a b c st hc]
  have hku2 : u.building_type = a ∧ u.building_period = b
      ∧ u.location_id = c := by
    simpa [Prod.ext_iff] using hku
  have hkv2 : v.building_type = a ∧ v.building_period = b
      ∧ v.location_id = c := by
    simpa [Prod.ext_iff] using hkv
  have hfl : ([u, v].filter fun r =>
      (r.building_type, r.building_period, r.location_id) = (a, b, c))
      = [u, v] := by
    simp [List.filter_cons, hku2.1, hku2.2.1, hku2.2.2, hkv2.1, hkv2.2.1,
      hkv2.2.2]
  congr 1 <;>
    · rw [hfl]
      simp [hwu, hwv]

/-- Witness for C2 at a concrete one-element structure-type index and two
concrete rows with weights 1/4 and 3/4. -/
theorem structure_statistics_weighted_aggregation_witness :
    (["wall"].count "wall" = 1
      ∧ physRow1.material_combination_weight = 1/4
      ∧ physRow2.material_combination_weight = 3/4)
    ∧ (calculate_structure_statistics cfg0 stT0 ["wall"]
        [physRow1, physRow2] ("AB", "1980-1990", "AT", "wall")).total_U_value_W_m2K
      = 1/4 * (calculate_U_values cfg0 stT0 physRow1 "wall").2.2.2
        + 3/4 * (calculate_U_values cfg0 stT0 physRow2 "wall").2.2.2 := by
  have h := structure_statistics_weighted_aggregation cfg0 stT0 ["wall"]
    [physRow1, physRow2] "AB" "1980-1990" "AT" "wall" (by decide)
  have h2 := h.2 physRow1 physRow2 rfl rfl rfl rfl
  exact ⟨⟨by decide, rfl, rfl⟩, by rw [h2]⟩

end AmBIENCe2ABM
